import Mathlib

/-!
Verification of the multimodal action handlers of wllama
(`src/cpp/wllama-mtmd.hpp`): `action_init_mtmd` and `action_process_image`.

The two handlers are shallowly embedded as pure Lean functions.  The
inference engine (`mtmd_tokenize`, `mtmd_helper_eval`, the sampler,
`llama_decode`, ...) is opaque to the handlers, so it is modelled as a
record of oracle functions (`engine`): each field gives the status or
value the corresponding engine call returns.  The process-wide global
`g_mtmd_ctx` and the relevant parts of `app_t` are threaded explicitly.
Engine-context allocation (`mtmd_init_from_file` / `mtmd_free`) is
modelled with a fresh-handle counter and a list of live handles, so that
leak properties can be stated.  Besides the response message, the
embedded `action_process_image` returns a few observables of the run
(whether `llama_kv_cache_clear` was invoked, the bitmap that was built,
the formatted prompt, the `n_past` value passed to `mtmd_helper_eval`,
and the final `n_past`); these fields only record what the corresponding
lines of the source do and have no influence on the computed response.
-/

namespace WllamaMtmd

/-- request message of `initMultimodal` (struct `glue_msg_init_mtmd_req`). -/
structure glue_msg_init_mtmd_req where
  mmproj_path : String
  use_gpu : Bool
  n_threads : Int
  image_marker : String

/-- response message of `initMultimodal` (struct `glue_msg_init_mtmd_res`). -/
structure glue_msg_init_mtmd_res where
  success : Bool
  error : String

/-- request message of `processImage` (struct `glue_msg_process_image_req`).
Bytes are modelled as natural numbers. -/
structure glue_msg_process_image_req where
  image_data : List Nat
  data_size : Int
  width : Int
  height : Int
  prompt : String
  use_cache : Bool

/-- response message of `processImage` (struct `glue_msg_process_image_res`).
In the source, `error` and `result` are default-constructed empty strings
and `success` is set to `false` at the top of the handler. -/
structure glue_msg_process_image_res where
  success : Bool
  error : String
  result : String

/-- error string of line 82 / line 130 of the source (`ModelNotLoaded`). -/
def err_model_not_loaded : String := "Text model not loaded. Call loadModel() first."

/-- error string of line 135 (`ContextNotInitialized`). -/
def err_context_not_initialized : String :=
  "Multimodal context not initialized. Call initMultimodal() first."

/-- error string of line 140 (`InvalidImageData`). -/
def err_invalid_image_data : String := "Invalid image data or dimensions"

/-- error string of line 155 (`ImageSizeMismatch`). -/
def err_image_size_mismatch : String := "Image data size does not match dimensions"

/-- error string of line 108 (`MultimodalInitFailed`). -/
def err_multimodal_init_failed : String := "Failed to initialize multimodal context"

/-- error string of line 184 (`TokenizationFailed`). -/
def err_tokenization_failed : String := "Failed to tokenize input with image"

/-- error string of line 207 (`EvaluationFailed`). -/
def err_evaluation_failed : String := "Failed to evaluate chunks"

/-- error string of line 251 (`DecodeFailed`). -/
def err_decode_failed : String := "Failed to decode token"

/-- the hard-coded marker of line 165 of the source, which is also the
engine's built-in default image marker. -/
def default_image_marker : String := "<__image__>"

/-- the generation bound of line 229 (`const int max_tokens = 1024`). -/
def max_tokens : Nat := 1024

/-- `haystack.find(needle) != std::string::npos` on `std::string`. -/
def contains_substr (hay needle : String) : Bool := decide (needle.data <:+: hay.data)

/-- struct `mtmd_bitmap` as filled in by lines 146-161 of the source. -/
structure mtmd_bitmap where
  nx : Int
  ny : Int
  data : List Nat
  id : String

/-- struct `mtmd_context_wrapper` (the global `g_mtmd_ctx`): the engine
context pointer (a handle, `none` = `nullptr`) and the flag. -/
structure mtmd_context_wrapper where
  ctx : Option Nat
  initialized : Bool

/-- the global state around `g_mtmd_ctx`, extended with an allocation
model of the engine contexts: `live` is the list of engine-context
handles currently allocated (created by `mtmd_init_from_file`, released
by `mtmd_free`), `next_id` feeds fresh handles, and `marker` is the image
marker held inside the live engine context (set from the params at
`mtmd_init_from_file`). -/
structure mtmd_global_state where
  wrapper : mtmd_context_wrapper
  live : List Nat
  next_id : Nat
  marker : String

/-- the parts of `app_t` the two handlers consult: whether `app.model`
and `app.ctx` are non-null, and whether `app.ctx_sampling` is present. -/
structure app_t where
  model : Bool
  ctx : Bool
  ctx_sampling : Bool

/-- struct `mtmd_context_params` as built by lines 95-103 of the source. -/
structure mtmd_context_params where
  use_gpu : Bool
  n_threads : Int
  image_marker : String

/-- outcome of the `mtmd_init_from_file` engine call inside the `try`
block of `action_init_mtmd`: a non-null context, a null context, or a
thrown exception. -/
inductive mtmd_init_outcome where
  | ok
  | null
  | thrown (msg : String)
deriving DecidableEq

/-- the opaque engine boundary of `action_process_image`: statuses and
values returned by the engine calls the handler makes.  `mtmd_tokenize`
takes the formatted text and the bitmap; `mtmd_helper_eval` takes the
`n_past` it is called with; `wcommon_sampler_sample` takes the `n_past`
at the sample call; `llama_decode` takes the position and the token in
the submitted batch and reports `true` exactly when the source's
`llama_decode` returns non-zero (failure). -/
structure engine where
  hash_bytes : List Nat → Nat
  mtmd_tokenize : String → mtmd_bitmap → Int
  mtmd_helper_get_n_tokens : Nat
  mtmd_helper_eval : Nat → Int
  llama_token_eos : Int
  wcommon_sampler_sample : Nat → Int
  llama_token_to_piece : Int → String
  llama_decode : Nat → Int → Bool

/-- cleanup block of lines 87-91 of the source: if a context exists,
`mtmd_free` it (the handle leaves the live list), null the pointer and
drop the flag. -/
def mtmd_cleanup (s : mtmd_global_state) : mtmd_global_state :=
  match s.wrapper.ctx with
  | some c =>
      { s with wrapper := { ctx := none, initialized := false },
               live := s.live.erase c }
  | none => s

/-- `action_init_mtmd` (lines 75-120 of the source), with the engine's
`mtmd_init_from_file` outcome passed in as `init_result`. -/
def action_init_mtmd (init_result : mtmd_init_outcome) (app : app_t)
    (req : glue_msg_init_mtmd_req) (s : mtmd_global_state) :
    mtmd_global_state × glue_msg_init_mtmd_res :=
  if app.model = false then
    (s, { success := false, error := err_model_not_loaded })
  else
    let s1 : mtmd_global_state := mtmd_cleanup s
    let params : mtmd_context_params :=
      { use_gpu := req.use_gpu,
        n_threads := if req.n_threads > 0 then req.n_threads else 1,
        image_marker :=
          if req.image_marker = "" then default_image_marker else req.image_marker }
    match init_result with
    | .thrown msg =>
        (s1, { success := false, error := "Exception: " ++ msg })
    | .null =>
        ({ s1 with wrapper := { ctx := none, initialized := s1.wrapper.initialized } },
         { success := false, error := err_multimodal_init_failed })
    | .ok =>
        ({ wrapper := { ctx := some s1.next_id, initialized := true },
           live := s1.next_id :: s1.live,
           next_id := s1.next_id + 1,
           marker := params.image_marker },
         { success := true, error := "" })

/-- outcome of the generation loop of lines 231-256: normal exit (end of
sequence or bound exhausted) with the accumulated text and the final
`n_past`, or an early return because `llama_decode` failed. -/
inductive gen_outcome where
  | finished (text : String) (n_past : Nat)
  | decode_failed
deriving DecidableEq

/-- the generation loop of lines 231-256 of the source: `fuel` iterations
remain out of `max_tokens`; sample, stop on end-of-sequence, append the
token's piece, then decode it and advance `n_past`. -/
def generation_loop (eng : engine) : Nat → Nat → String → gen_outcome
  | 0, n_past, generated_text => .finished generated_text n_past
  | fuel + 1, n_past, generated_text =>
    let id := eng.wcommon_sampler_sample n_past
    if id = eng.llama_token_eos then
      .finished generated_text n_past
    else
      let token_str := eng.llama_token_to_piece id
      let generated_text := generated_text ++ token_str
      if eng.llama_decode n_past id then
        .decode_failed
      else
        generation_loop eng fuel (n_past + 1) generated_text

/-- result of one embedded `action_process_image` run: the response, the
global `g_mtmd_ctx` and `app_t` state after the call, and observables of
the run: whether `llama_kv_cache_clear` was invoked, the bitmap that was
built (if construction was reached and succeeded), the formatted prompt
handed to `mtmd_tokenize`, the `n_past` passed to `mtmd_helper_eval`
(if reached), and the value of `n_past` when the handler returned
through the generation loop. -/
structure process_image_run where
  res : glue_msg_process_image_res
  g : mtmd_context_wrapper
  app : app_t
  cache_cleared : Bool
  bitmap : Option mtmd_bitmap
  formatted_prompt : Option String
  eval_pos : Option Nat
  final_n_past : Option Nat

/-- a failing `action_process_image` run that stopped before the bitmap
was built: response with the given error, empty result, state untouched. -/
def failure_run (g : mtmd_context_wrapper) (app : app_t) (e : String) :
    process_image_run :=
  { res := { success := false, error := e, result := "" },
    g := g, app := app, cache_cleared := false, bitmap := none,
    formatted_prompt := none, eval_pos := none, final_n_past := none }

/-- `action_process_image` (lines 123-269 of the source). -/
def action_process_image (eng : engine) (g : mtmd_context_wrapper) (app : app_t)
    (req : glue_msg_process_image_req) : process_image_run :=
  if app.model = false ∨ app.ctx = false then
    failure_run g app err_model_not_loaded
  else if g.initialized = false ∨ g.ctx = none then
    failure_run g app err_context_not_initialized
  else if req.image_data = [] ∨ req.width ≤ 0 ∨ req.height ≤ 0 then
    failure_run g app err_invalid_image_data
  else
    let need : Nat := (req.width * req.height * 3).toNat
    if req.image_data.length < need then
      failure_run g app err_image_size_mismatch
    else
      let bitmap : mtmd_bitmap :=
        { nx := req.width, ny := req.height,
          data := req.image_data.take need,
          id := "img_" ++ toString (eng.hash_bytes req.image_data) }
      let formatted_prompt : String :=
        if contains_substr req.prompt default_image_marker then req.prompt
        else req.prompt ++ " " ++ default_image_marker
      if eng.mtmd_tokenize formatted_prompt bitmap ≠ 0 then
        { failure_run g app err_tokenization_failed with
            bitmap := some bitmap, formatted_prompt := some formatted_prompt }
      else
        let cache_cleared : Bool := !req.use_cache
        let n_past : Nat := 0
        if eng.mtmd_helper_eval n_past ≠ 0 then
          { failure_run g app err_evaluation_failed with
              cache_cleared := cache_cleared, bitmap := some bitmap,
              formatted_prompt := some formatted_prompt, eval_pos := some n_past }
        else
          let n_past := n_past + eng.mtmd_helper_get_n_tokens
          let app1 : app_t := { app with ctx_sampling := true }
          match generation_loop eng max_tokens n_past "" with
          | .decode_failed =>
              { res := { success := false, error := err_decode_failed, result := "" },
                g := g, app := app1, cache_cleared := cache_cleared,
                bitmap := some bitmap, formatted_prompt := some formatted_prompt,
                eval_pos := some 0, final_n_past := none }
          | .finished text np =>
              { res := { success := true, error := "", result := text },
                g := g, app := app1, cache_cleared := cache_cleared,
                bitmap := some bitmap, formatted_prompt := some formatted_prompt,
                eval_pos := some 0, final_n_past := some np }

/-- text of `fuel` consecutive sampled tokens starting at position
`start`, each converted to its piece, in order: the text the spec's
bounded-generation clause describes when end-of-sequence never appears
and no decode fails. -/
def gen_text (eng : engine) : Nat → Nat → String
  | 0, _ => ""
  | fuel + 1, start =>
      eng.llama_token_to_piece (eng.wcommon_sampler_sample start) ++
        gen_text eng fuel (start + 1)

/-- concatenation of a list of token pieces, in order. -/
def concat_pieces : List String → String
  | [] => ""
  | s :: rest => s ++ concat_pieces rest

/-- well-formedness of the allocation model: the live engine contexts
are exactly the one held by the wrapper, and every live handle is below
the fresh counter (holds for the initial empty state and is preserved by
`action_init_mtmd`, see `action_init_mtmd_wf`). -/
def state_wf (s : mtmd_global_state) : Prop :=
  s.live = s.wrapper.ctx.toList ∧ ∀ c ∈ s.live, c < s.next_id

/-- a benign engine: token 0 is end of sequence and is sampled at once,
every status is success. -/
def test_engine : engine :=
  { hash_bytes := fun _ => 7, mtmd_tokenize := fun _ _ => 0,
    mtmd_helper_get_n_tokens := 3, mtmd_helper_eval := fun _ => 0,
    llama_token_eos := 0, wcommon_sampler_sample := fun _ => 0,
    llama_token_to_piece := fun _ => "tok", llama_decode := fun _ _ => false }

/-- an engine whose sampler never emits the end-of-sequence token and
whose decode step always succeeds. -/
def test_engine_run : engine :=
  { test_engine with wcommon_sampler_sample := fun _ => 1 }

/-- an engine whose sampler never emits end-of-sequence and whose decode
step fails exactly at position 4 (iteration 1 of the loop, as chunk
evaluation occupies positions 0-2). -/
def test_engine_decfail : engine :=
  { test_engine with wcommon_sampler_sample := fun _ => 1,
                     llama_decode := fun p _ => p == 4 }

/-- a ready multimodal context wrapper. -/
def test_g : mtmd_context_wrapper := { ctx := some 5, initialized := true }

/-- a never-initialized multimodal context wrapper. -/
def test_g_off : mtmd_context_wrapper := { ctx := none, initialized := false }

/-- an `app_t` with model and inference context loaded. -/
def test_app : app_t := { model := true, ctx := true, ctx_sampling := false }

/-- an `app_t` with no model loaded. -/
def test_app_nomodel : app_t := { model := false, ctx := true, ctx_sampling := false }

/-- a valid 2 by 2 image request (12 bytes), prompt without marker. -/
def test_req : glue_msg_process_image_req :=
  { image_data := [1, 2, 3, 4, 5, 6, 7, 8, 9, 10, 11, 12], data_size := 12,
    width := 2, height := 2, prompt := "hi", use_cache := false }

/-- the same request asking for cache reuse. -/
def test_req_cached : glue_msg_process_image_req := { test_req with use_cache := true }

/-- a request whose prompt already holds the custom configured marker. -/
def test_req_marked : glue_msg_process_image_req := { test_req with prompt := "hi <IMG>" }

/-- the pristine global state at process start. -/
def test_s0 : mtmd_global_state :=
  { wrapper := { ctx := none, initialized := false }, live := [], next_id := 0,
    marker := "" }

/-- a global state with one live engine context, handle 5. -/
def test_s_live : mtmd_global_state :=
  { wrapper := { ctx := some 5, initialized := true }, live := [5], next_id := 6,
    marker := default_image_marker }

/-- an `initMultimodal` request configuring a custom image marker. -/
def test_init_req : glue_msg_init_mtmd_req :=
  { mmproj_path := "models/mmproj.gguf", use_gpu := false, n_threads := 0,
    image_marker := "<IMG>" }

lemma generation_loop_pieces (eng : engine) :
    ∀ fuel start acc,
      generation_loop eng fuel start acc = .decode_failed ∨
      ∃ (ids : List Int) (np : Nat), (∀ id ∈ ids, ¬ id = eng.llama_token_eos) ∧
        generation_loop eng fuel start acc =
          .finished (acc ++ concat_pieces (ids.map eng.llama_token_to_piece)) np := by
  intro fuel
  induction fuel with
  | zero =>
      intro start acc
      right
      exact ⟨[], start, by simp, by simp [generation_loop, concat_pieces]⟩
  | succ f ih =>
      intro start acc
      by_cases hs : eng.wcommon_sampler_sample start = eng.llama_token_eos
      · right
        exact ⟨[], start, by simp, by simp [generation_loop, hs, concat_pieces]⟩
      · by_cases hdec : eng.llama_decode start (eng.wcommon_sampler_sample start) = true
        · left
          simp [generation_loop, hs, hdec]
        · rw [Bool.not_eq_true] at hdec
          rcases ih (start + 1)
              (acc ++ eng.llama_token_to_piece (eng.wcommon_sampler_sample start)) with
            h | ⟨ids, np, hids, heq⟩
          · left
            simp [generation_loop, hs, hdec, h]
          · right
            refine ⟨eng.wcommon_sampler_sample start :: ids, np, ?_, ?_⟩
            · intro id hid
              rcases List.mem_cons.mp hid with h | h
              · exact h ▸ hs
              · exact hids id h
            · simp only [generation_loop, concat_pieces, List.map_cons]
              rw [if_neg hs]
              simp [hdec, heq, String.append_assoc]

lemma generation_loop_decode_failed (eng : engine) :
    ∀ k fuel start acc, k < fuel →
      (∀ i, i < k → eng.wcommon_sampler_sample (start + i) ≠ eng.llama_token_eos ∧
        eng.llama_decode (start + i) (eng.wcommon_sampler_sample (start + i)) = false) →
      eng.wcommon_sampler_sample (start + k) ≠ eng.llama_token_eos →
      eng.llama_decode (start + k) (eng.wcommon_sampler_sample (start + k)) = true →
      generation_loop eng fuel start acc = .decode_failed := by
  intro k
  induction k with
  | zero =>
      intro fuel start acc hf hpre hs hd
      cases fuel with
      | zero => omega
      | succ f =>
          simp only [Nat.add_zero] at hs hd
          simp [generation_loop, hs, hd]
  | succ k ih =>
      intro fuel start acc hf hpre hs hd
      cases fuel with
      | zero => omega
      | succ f =>
          obtain ⟨hs0, hd0⟩ := hpre 0 (Nat.succ_pos k)
          simp only [Nat.add_zero] at hs0 hd0
          have step : generation_loop eng (f + 1) start acc =
              generation_loop eng f (start + 1)
                (acc ++ eng.llama_token_to_piece (eng.wcommon_sampler_sample start)) := by
            simp [generation_loop, hs0, hd0]
          rw [step]
          refine ih f (start + 1) _ (by omega) ?_ ?_ ?_
          · intro i hi
            have h := hpre (i + 1) (by omega)
            rwa [show start + (i + 1) = start + 1 + i by omega] at h
          · have h := hs
            rwa [show start + (k + 1) = start + 1 + k by omega] at h
          · have h := hd
            rwa [show start + (k + 1) = start + 1 + k by omega] at h

lemma string_empty_append (s : String) : "" ++ s = s := by
  simp

lemma process_image_result_empty_or_loop (eng : engine) (g : mtmd_context_wrapper)
    (app : app_t) (req : glue_msg_process_image_req) :
    (action_process_image eng g app req).res.result = "" ∨
    ∃ np, generation_loop eng max_tokens eng.mtmd_helper_get_n_tokens "" =
        .finished ((action_process_image eng g app req).res.result) np := by
  simp only [action_process_image, failure_run, Nat.zero_add]
  repeat' split
  all_goals simp_all

lemma process_image_result_pieces (eng : engine) (g : mtmd_context_wrapper)
    (app : app_t) (req : glue_msg_process_image_req) :
    ∃ ids : List Int, (∀ id ∈ ids, ¬ id = eng.llama_token_eos) ∧
      (action_process_image eng g app req).res.result =
        concat_pieces (ids.map eng.llama_token_to_piece) := by
  rcases process_image_result_empty_or_loop eng g app req with h | ⟨np, h⟩
  · exact ⟨[], by simp, by simp [h, concat_pieces]⟩
  · rcases generation_loop_pieces eng max_tokens eng.mtmd_helper_get_n_tokens "" with
      hdf | ⟨ids, np2, hids, heq⟩
    · rw [hdf] at h
      exact absurd h (by simp)
    · rw [heq] at h
      refine ⟨ids, hids, ?_⟩
      have := (gen_outcome.finished.injEq _ _ _ _).mp h.symm
      simpa using this.1

end WllamaMtmd

namespace WllamaMtmd

/-- after the cleanup block the context pointer is always null. -/
lemma mtmd_cleanup_ctx_none (s : mtmd_global_state) :
    (mtmd_cleanup s).wrapper.ctx = none := by
  cases h : s.wrapper.ctx <;> simp [mtmd_cleanup, h]

/-- the cleanup block keeps the fresh-handle counter. -/
lemma mtmd_cleanup_next_id (s : mtmd_global_state) :
    (mtmd_cleanup s).next_id = s.next_id := by
  cases h : s.wrapper.ctx <;> simp [mtmd_cleanup, h]

/-- on a well-formed state the cleanup block frees every live context. -/
lemma mtmd_cleanup_live_nil (s : mtmd_global_state) (h : state_wf s) :
    (mtmd_cleanup s).live = [] := by
  obtain ⟨h1, _⟩ := h
  cases hc : s.wrapper.ctx <;> simp [mtmd_cleanup, hc, hc ▸ h1]

/-- `action_init_mtmd` preserves well-formedness of the allocation model. -/
lemma action_init_mtmd_wf (o : mtmd_init_outcome) (app : app_t)
    (req : glue_msg_init_mtmd_req) (s : mtmd_global_state) (h : state_wf s) :
    state_wf (action_init_mtmd o app req s).1 := by
  obtain ⟨h1, h2⟩ := h
  by_cases hm : app.model = false
  · simpa [action_init_mtmd, hm] using ⟨h1, h2⟩
  · have hcl : (mtmd_cleanup s).live = [] := mtmd_cleanup_live_nil s ⟨h1, h2⟩
    have hcn : (mtmd_cleanup s).wrapper.ctx = none := mtmd_cleanup_ctx_none s
    cases o <;>
      simp [action_init_mtmd, hm, state_wf, hcl, hcn, mtmd_cleanup_next_id]

/-- with a model loaded, `initMultimodal` succeeds exactly when the
engine returns a non-null context. -/
lemma action_init_mtmd_success (o : mtmd_init_outcome) (app : app_t)
    (req : glue_msg_init_mtmd_req) (s : mtmd_global_state)
    (hm : app.model = true) :
    ((action_init_mtmd o app req s).2.success = true ↔ o = .ok) := by
  cases o <;> simp [action_init_mtmd, hm]

/-- with a model loaded and a non-null engine result, the new context is
the fresh handle and it is the sole addition to the live list. -/
lemma action_init_mtmd_ok_state (app : app_t) (req : glue_msg_init_mtmd_req)
    (s : mtmd_global_state) (hm : app.model = true) :
    (action_init_mtmd .ok app req s).1.wrapper.ctx = some (mtmd_cleanup s).next_id ∧
    (action_init_mtmd .ok app req s).1.live =
      (mtmd_cleanup s).next_id :: (mtmd_cleanup s).live := by
  simp [action_init_mtmd, hm]

/-- with a model loaded and a failed engine init (null context or
exception), the wrapper ends with a null pointer and the live list is
the one the cleanup block left. -/
lemma action_init_mtmd_fail_state (o : mtmd_init_outcome) (app : app_t)
    (req : glue_msg_init_mtmd_req) (s : mtmd_global_state)
    (hm : app.model = true) (ho : o ≠ .ok) :
    (action_init_mtmd o app req s).1.wrapper.ctx = none ∧
    (action_init_mtmd o app req s).1.live = (mtmd_cleanup s).live := by
  cases o with
  | ok => exact absurd rfl ho
  | null => simp [action_init_mtmd, hm]
  | thrown msg => simp [action_init_mtmd, hm, mtmd_cleanup_ctx_none]

/-- with a model loaded, a context previously live and a failed engine
init, the flag ends false. -/
lemma action_init_mtmd_fail_flag (o : mtmd_init_outcome) (app : app_t)
    (req : glue_msg_init_mtmd_req) (s : mtmd_global_state) (c : Nat)
    (hm : app.model = true) (ho : o ≠ .ok) (hctx : s.wrapper.ctx = some c) :
    (action_init_mtmd o app req s).1.wrapper.initialized = false := by
  cases o with
  | ok => exact absurd rfl ho
  | null => simp [action_init_mtmd, hm, mtmd_cleanup, hctx]
  | thrown msg => simp [action_init_mtmd, hm, mtmd_cleanup, hctx]

end WllamaMtmd

namespace WllamaMtmd

lemma process_image_g_eq (eng : engine) (g : mtmd_context_wrapper) (app : app_t)
    (req : glue_msg_process_image_req) :
    (action_process_image eng g app req).g = g := by
  simp only [action_process_image, failure_run]
  repeat' split
  all_goals rfl

lemma process_image_bitmap_some (eng : engine) (g : mtmd_context_wrapper)
    (app : app_t) (req : glue_msg_process_image_req) (c : Nat)
    (hm : app.model = true) (hc : app.ctx = true)
    (hi : g.initialized = true) (hg : g.ctx = some c)
    (hd : req.image_data ≠ []) (hw : 0 < req.width) (hh : 0 < req.height)
    (hlen : (req.width * req.height * 3).toNat ≤ req.image_data.length) :
    (action_process_image eng g app req).bitmap =
      some { nx := req.width, ny := req.height,
             data := req.image_data.take ((req.width * req.height * 3).toNat),
             id := "img_" ++ toString (eng.hash_bytes req.image_data) } := by
  simp only [action_process_image]
  rw [if_neg (by simp [hm, hc]), if_neg (by simp [hi, hg]),
      if_neg (by simp [hd, hw.not_le, hh.not_le]), if_neg (not_lt.mpr hlen)]
  repeat' split
  all_goals rfl

lemma process_image_formatted (eng : engine) (g : mtmd_context_wrapper)
    (app : app_t) (req : glue_msg_process_image_req) (c : Nat)
    (hm : app.model = true) (hc : app.ctx = true)
    (hi : g.initialized = true) (hg : g.ctx = some c)
    (hd : req.image_data ≠ []) (hw : 0 < req.width) (hh : 0 < req.height)
    (hlen : (req.width * req.height * 3).toNat ≤ req.image_data.length) :
    (action_process_image eng g app req).formatted_prompt =
      some (if contains_substr req.prompt default_image_marker then req.prompt
            else req.prompt ++ " " ++ default_image_marker) := by
  simp only [action_process_image]
  rw [if_neg (by simp [hm, hc]), if_neg (by simp [hi, hg]),
      if_neg (by simp [hd, hw.not_le, hh.not_le]), if_neg (not_lt.mpr hlen)]
  repeat' split
  all_goals rfl

lemma process_image_cache_eval (eng : engine) (g : mtmd_context_wrapper)
    (app : app_t) (req : glue_msg_process_image_req) (c : Nat)
    (hm : app.model = true) (hc : app.ctx = true)
    (hi : g.initialized = true) (hg : g.ctx = some c)
    (hd : req.image_data ≠ []) (hw : 0 < req.width) (hh : 0 < req.height)
    (hlen : (req.width * req.height * 3).toNat ≤ req.image_data.length)
    (ht : ∀ s b, eng.mtmd_tokenize s b = 0) :
    (action_process_image eng g app req).cache_cleared = !req.use_cache ∧
    (action_process_image eng g app req).eval_pos = some 0 := by
  simp only [action_process_image]
  rw [if_neg (by simp [hm, hc]), if_neg (by simp [hi, hg]),
      if_neg (by simp [hd, hw.not_le, hh.not_le]), if_neg (not_lt.mpr hlen)]
  constructor <;> (repeat' split) <;> first | rfl | simp_all

lemma process_image_res_eq (eng : engine) (g : mtmd_context_wrapper)
    (app : app_t) (req : glue_msg_process_image_req) (c : Nat)
    (hm : app.model = true) (hc : app.ctx = true)
    (hi : g.initialized = true) (hg : g.ctx = some c)
    (hd : req.image_data ≠ []) (hw : 0 < req.width) (hh : 0 < req.height)
    (hlen : (req.width * req.height * 3).toNat ≤ req.image_data.length)
    (ht : ∀ s b, eng.mtmd_tokenize s b = 0)
    (he : ∀ p, eng.mtmd_helper_eval p = 0) :
    (action_process_image eng g app req).res =
      (match generation_loop eng max_tokens eng.mtmd_helper_get_n_tokens "" with
       | .decode_failed => { success := false, error := err_decode_failed, result := "" }
       | .finished text _ => { success := true, error := "", result := text }) ∧
    (action_process_image eng g app req).final_n_past =
      (match generation_loop eng max_tokens eng.mtmd_helper_get_n_tokens "" with
       | .decode_failed => none
       | .finished _ np => some np) := by
  simp only [action_process_image, Nat.zero_add]
  rw [if_neg (by simp [hm, hc]), if_neg (by simp [hi, hg]),
      if_neg (by simp [hd, hw.not_le, hh.not_le]), if_neg (not_lt.mpr hlen)]
  rw [if_neg (by simp [ht]), if_neg (by simp [he])]
  rcases h : generation_loop eng max_tokens eng.mtmd_helper_get_n_tokens "" with _ | _ <;>
    simp [h]

end WllamaMtmd

namespace WllamaMtmd

lemma generation_loop_eos (eng : engine) (start : Nat) (acc : String)
    (h : eng.wcommon_sampler_sample start = eng.llama_token_eos) :
    ∀ fuel, 0 < fuel → generation_loop eng fuel start acc = .finished acc start := by
  intro fuel hf
  cases fuel with
  | zero => omega
  | succ f => simp [generation_loop, h]

lemma generation_loop_no_eos (eng : engine)
    (h1 : ∀ p, eng.wcommon_sampler_sample p ≠ eng.llama_token_eos)
    (h2 : ∀ p t, eng.llama_decode p t = false) :
    ∀ fuel start acc,
      generation_loop eng fuel start acc =
        .finished (acc ++ gen_text eng fuel start) (start + fuel) := by
  intro fuel
  induction fuel with
  | zero => intro start acc; simp [generation_loop, gen_text]
  | succ f ih =>
      intro start acc
      simp only [generation_loop, gen_text]
      rw [if_neg (h1 start)]
      simp only [h2, if_false]
      rw [ih (start + 1)]
      simp [String.append_assoc]
      omega

lemma generation_loop_no_eos_nil (eng : engine)
    (h1 : ∀ p, eng.wcommon_sampler_sample p ≠ eng.llama_token_eos)
    (h2 : ∀ p t, eng.llama_decode p t = false) (fuel start : Nat) :
    generation_loop eng fuel start "" =
      .finished (gen_text eng fuel start) (start + fuel) := by
  rw [generation_loop_no_eos eng h1 h2 fuel start "", string_empty_append]



/-- a request with a non-positive declared width. -/
def test_req_bad : glue_msg_process_image_req := { test_req with width := 0 }

/-- a request whose buffer is shorter than width times height times 3. -/
def test_req_short : glue_msg_process_image_req := { test_req with image_data := [1, 2, 3] }

/-- a request whose prompt already holds the default image marker. -/
def test_req_def_marked : glue_msg_process_image_req :=
  { test_req with prompt := "a <__image__> b" }

/-- C1: while the text model and inference context are present but no
successful `initMultimodal` has happened (the multimodal context is not
initialized), every `processImage` request fails with the
`ContextNotInitialized` error, whatever the image bytes, dimensions,
prompt or cache flag carry. -/
theorem claim_C1 (eng : engine) (g : mtmd_context_wrapper) (app : app_t)
    (req : glue_msg_process_image_req)
    (hm : app.model = true) (hc : app.ctx = true) (hi : g.initialized = false) :
    (action_process_image eng g app req).res.success = false ∧
    (action_process_image eng g app req).res.error = err_context_not_initialized := by
  simp only [action_process_image, failure_run]
  rw [if_neg (by simp [hm, hc]), if_pos (by simp [hi])]
  exact ⟨rfl, rfl⟩

/-- witness for C1 at a fully valid request and an untouched context. -/
theorem claim_C1_witness :
    test_app.model = true ∧ test_app.ctx = true ∧ test_g_off.initialized = false ∧
    (action_process_image test_engine test_g_off test_app test_req).res.success = false ∧
    (action_process_image test_engine test_g_off test_app test_req).res.error =
      err_context_not_initialized := by
  refine ⟨rfl, rfl, rfl, ?_, ?_⟩
  · exact (claim_C1 test_engine test_g_off test_app test_req rfl rfl rfl).1
  · exact (claim_C1 test_engine test_g_off test_app test_req rfl rfl rfl).2


/-- C2 (amended): when the cache flag is false the attention cache is
cleared and the decode position cursor is zero before chunk evaluation;
when the flag is true the cache is not cleared, but the cursor is not
carried over from the previous request either: it is a per-request local
that always starts at zero, so evaluation begins at position 0 in both
cases. -/
theorem claim_C2_amended (eng : engine) (g : mtmd_context_wrapper) (app : app_t)
    (req : glue_msg_process_image_req) (c : Nat)
    (hm : app.model = true) (hc : app.ctx = true)
    (hi : g.initialized = true) (hg : g.ctx = some c)
    (hd : req.image_data ≠ []) (hw : 0 < req.width) (hh : 0 < req.height)
    (hlen : (req.width * req.height * 3).toNat ≤ req.image_data.length)
    (ht : ∀ s b, eng.mtmd_tokenize s b = 0) :
    (req.use_cache = false →
        (action_process_image eng g app req).cache_cleared = true ∧
        (action_process_image eng g app req).eval_pos = some 0) ∧
    (req.use_cache = true →
        (action_process_image eng g app req).cache_cleared = false ∧
        (action_process_image eng g app req).eval_pos = some 0) := by
  obtain ⟨h1, h2⟩ := process_image_cache_eval eng g app req c hm hc hi hg hd hw hh hlen ht
  constructor
  · intro hu
    rw [h1, hu]
    exact ⟨rfl, h2⟩
  · intro hu
    rw [h1, hu]
    exact ⟨rfl, h2⟩

/-- witness for the amended C2: one run without and one with cache reuse. -/
theorem claim_C2_amended_witness :
    ((action_process_image test_engine test_g test_app test_req).cache_cleared = true ∧
     (action_process_image test_engine test_g test_app test_req).eval_pos = some 0) ∧
    ((action_process_image test_engine test_g test_app test_req_cached).cache_cleared = false ∧
     (action_process_image test_engine test_g test_app test_req_cached).eval_pos = some 0) := by
  constructor
  · exact (claim_C2_amended test_engine test_g test_app test_req 5 rfl rfl rfl rfl
      (by decide) (by decide) (by decide) (by decide) (fun _ _ => rfl)).1 rfl
  · exact (claim_C2_amended test_engine test_g test_app test_req_cached 5 rfl rfl rfl rfl
      (by decide) (by decide) (by decide) (by decide) (fun _ _ => rfl)).2 rfl

/-- counterexample to C2 as stated: with cache reuse requested, evaluation
does not continue from the cursor value the previous request ended at.
The first request ends with cursor 3 (three chunk tokens, immediate end
of sequence); the follow-up request with the cache flag set still hands
position 0 to the chunk evaluation, not 3. -/
theorem claim_C2_counterexample :
    (action_process_image test_engine test_g test_app test_req).final_n_past = some 3 ∧
    ((action_process_image test_engine
        (action_process_image test_engine test_g test_app test_req).g
        (action_process_image test_engine test_g test_app test_req).app
        test_req_cached).eval_pos = some 0) ∧
    test_req_cached.use_cache = true ∧
    some (0 : Nat) ≠ some (3 : Nat) := by
  decide

/-- C3: with model, context and multimodal context ready, an empty buffer
or non-positive dimension fails with `InvalidImageData`; a non-empty
buffer with positive dimensions but fewer than width times height times 3
bytes fails with `ImageSizeMismatch`; the bitmap is built, copying the
first width times height times 3 bytes, exactly when the buffer is large
enough. -/
theorem claim_C3 (eng : engine) (g : mtmd_context_wrapper) (app : app_t)
    (req : glue_msg_process_image_req) (c : Nat)
    (hm : app.model = true) (hc : app.ctx = true)
    (hi : g.initialized = true) (hg : g.ctx = some c) :
    ((req.image_data = [] ∨ req.width ≤ 0 ∨ req.height ≤ 0) →
        (action_process_image eng g app req).res.success = false ∧
        (action_process_image eng g app req).res.error = err_invalid_image_data) ∧
    (req.image_data ≠ [] → 0 < req.width → 0 < req.height →
      req.image_data.length < (req.width * req.height * 3).toNat →
        (action_process_image eng g app req).res.success = false ∧
        (action_process_image eng g app req).res.error = err_image_size_mismatch) ∧
    (req.image_data ≠ [] → 0 < req.width → 0 < req.height →
      (((action_process_image eng g app req).bitmap.isSome = true) ↔
          (req.width * req.height * 3).toNat ≤ req.image_data.length) ∧
      (∀ b, (action_process_image eng g app req).bitmap = some b →
          b.data = req.image_data.take ((req.width * req.height * 3).toNat))) := by
  refine ⟨?_, ?_, ?_⟩
  · intro h
    simp only [action_process_image, failure_run]
    rw [if_neg (by simp [hm, hc]), if_neg (by simp [hi, hg]), if_pos h]
    exact ⟨rfl, rfl⟩
  · intro hd hw hh hlen
    simp only [action_process_image, failure_run]
    rw [if_neg (by simp [hm, hc]), if_neg (by simp [hi, hg]),
        if_neg (by simp [hd, hw.not_le, hh.not_le]), if_pos hlen]
    exact ⟨rfl, rfl⟩
  · intro hd hw hh
    have hnone : req.image_data.length < (req.width * req.height * 3).toNat →
        (action_process_image eng g app req).bitmap = none := by
      intro hlt
      simp only [action_process_image, failure_run]
      rw [if_neg (by simp [hm, hc]), if_neg (by simp [hi, hg]),
          if_neg (by simp [hd, hw.not_le, hh.not_le]), if_pos hlt]
    constructor
    · constructor
      · intro hsome
        by_contra hlt
        rw [hnone (not_le.mp hlt)] at hsome
        exact Bool.false_ne_true hsome
      · intro hlen
        rw [process_image_bitmap_some eng g app req c hm hc hi hg hd hw hh hlen]
        rfl
    · intro b hb
      by_cases hlen : (req.width * req.height * 3).toNat ≤ req.image_data.length
      · rw [process_image_bitmap_some eng g app req c hm hc hi hg hd hw hh hlen] at hb
        injection hb with hb
        rw [← hb]
      · rw [hnone (not_le.mp hlen)] at hb
        exact absurd hb (by simp)

/-- witness for C3: a zero width fails as invalid, a 3-byte buffer for a
2 by 2 image fails as a size mismatch, a 12-byte buffer builds a bitmap. -/
theorem claim_C3_witness :
    ((action_process_image test_engine test_g test_app test_req_bad).res.success = false ∧
     (action_process_image test_engine test_g test_app test_req_bad).res.error =
       err_invalid_image_data) ∧
    ((action_process_image test_engine test_g test_app test_req_short).res.success = false ∧
     (action_process_image test_engine test_g test_app test_req_short).res.error =
       err_image_size_mismatch) ∧
    ((action_process_image test_engine test_g test_app test_req).bitmap.isSome = true) := by
  refine ⟨?_, ?_, ?_⟩
  · exact (claim_C3 test_engine test_g test_app test_req_bad 5 rfl rfl rfl rfl).1
      (Or.inr (Or.inl (by decide)))
  · exact (claim_C3 test_engine test_g test_app test_req_short 5 rfl rfl rfl rfl).2.1
      (by decide) (by decide) (by decide) (by decide)
  · exact (((claim_C3 test_engine test_g test_app test_req 5 rfl rfl rfl rfl).2.2
      (by decide) (by decide) (by decide)).1).mpr (by decide)


/-- C4: if the single-token decode step fails at iteration k of the
generation loop (the first k iterations sampled non-end-of-sequence
tokens and decoded fine), the response is success=false with the
`DecodeFailed` error and an empty generated-text payload: none of the
token strings accumulated before the failure appear in the result. -/
theorem claim_C4 (eng : engine) (g : mtmd_context_wrapper) (app : app_t)
    (req : glue_msg_process_image_req) (c k : Nat)
    (hm : app.model = true) (hc : app.ctx = true)
    (hi : g.initialized = true) (hg : g.ctx = some c)
    (hd : req.image_data ≠ []) (hw : 0 < req.width) (hh : 0 < req.height)
    (hlen : (req.width * req.height * 3).toNat ≤ req.image_data.length)
    (ht : ∀ s b, eng.mtmd_tokenize s b = 0)
    (he : ∀ p, eng.mtmd_helper_eval p = 0)
    (hk : k < max_tokens)
    (hpre : ∀ i, i < k →
      eng.wcommon_sampler_sample (eng.mtmd_helper_get_n_tokens + i) ≠
        eng.llama_token_eos ∧
      eng.llama_decode (eng.mtmd_helper_get_n_tokens + i)
        (eng.wcommon_sampler_sample (eng.mtmd_helper_get_n_tokens + i)) = false)
    (hsk : eng.wcommon_sampler_sample (eng.mtmd_helper_get_n_tokens + k) ≠
      eng.llama_token_eos)
    (hdk : eng.llama_decode (eng.mtmd_helper_get_n_tokens + k)
      (eng.wcommon_sampler_sample (eng.mtmd_helper_get_n_tokens + k)) = true) :
    (action_process_image eng g app req).res.success = false ∧
    (action_process_image eng g app req).res.error = err_decode_failed ∧
    (action_process_image eng g app req).res.result = "" := by
  obtain ⟨hres, _⟩ := process_image_res_eq eng g app req c hm hc hi hg hd hw hh hlen ht he
  rw [generation_loop_decode_failed eng k max_tokens eng.mtmd_helper_get_n_tokens ""
    hk hpre hsk hdk] at hres
  rw [hres]
  exact ⟨rfl, rfl, rfl⟩

/-- witness for C4: chunk evaluation occupies positions 0-2 and the
decode step fails at position 4, iteration 1; the token piece
accumulated at iteration 0 is absent from the returned result. -/
theorem claim_C4_witness :
    (action_process_image test_engine_decfail test_g test_app test_req).res.success = false ∧
    (action_process_image test_engine_decfail test_g test_app test_req).res.error =
      err_decode_failed ∧
    (action_process_image test_engine_decfail test_g test_app test_req).res.result = "" := by
  refine claim_C4 test_engine_decfail test_g test_app test_req 5 1 rfl rfl rfl rfl
    (by decide) (by decide) (by decide) (by decide) (fun _ _ => rfl) (fun _ => rfl)
    (by decide) ?_ (by decide) (by decide)
  intro i hi
  have h0 : i = 0 := by omega
  subst h0
  exact ⟨by decide, by decide⟩

/-- C5: the generation loop runs at most 1024 iterations; with an engine
that never samples the end-of-sequence token and never fails a decode,
the loop still terminates, the request succeeds, and the result is the
text of exactly 1024 sampled tokens (exhaustion is not an error). -/
theorem claim_C5 (eng : engine) (g : mtmd_context_wrapper) (app : app_t)
    (req : glue_msg_process_image_req) (c : Nat)
    (hm : app.model = true) (hc : app.ctx = true)
    (hi : g.initialized = true) (hg : g.ctx = some c)
    (hd : req.image_data ≠ []) (hw : 0 < req.width) (hh : 0 < req.height)
    (hlen : (req.width * req.height * 3).toNat ≤ req.image_data.length)
    (ht : ∀ s b, eng.mtmd_tokenize s b = 0)
    (he : ∀ p, eng.mtmd_helper_eval p = 0)
    (hs : ∀ p, eng.wcommon_sampler_sample p ≠ eng.llama_token_eos)
    (hdec : ∀ p t, eng.llama_decode p t = false) :
    (action_process_image eng g app req).res.success = true ∧
    (action_process_image eng g app req).res.result =
      gen_text eng max_tokens eng.mtmd_helper_get_n_tokens ∧
    (action_process_image eng g app req).final_n_past =
      some (eng.mtmd_helper_get_n_tokens + max_tokens) := by
  obtain ⟨hres, hnp⟩ := process_image_res_eq eng g app req c hm hc hi hg hd hw hh hlen ht he
  rw [generation_loop_no_eos_nil eng hs hdec max_tokens eng.mtmd_helper_get_n_tokens]
    at hres hnp
  rw [hres, hnp]
  exact ⟨rfl, rfl, rfl⟩

/-- witness for C5: an engine that always samples token 1 and never
fails; the request succeeds with the 1024-piece text. -/
theorem claim_C5_witness :
    (action_process_image test_engine_run test_g test_app test_req).res.success = true ∧
    (action_process_image test_engine_run test_g test_app test_req).res.result =
      gen_text test_engine_run max_tokens test_engine_run.mtmd_helper_get_n_tokens ∧
    (action_process_image test_engine_run test_g test_app test_req).final_n_past =
      some (test_engine_run.mtmd_helper_get_n_tokens + max_tokens) :=
  claim_C5 test_engine_run test_g test_app test_req 5 rfl rfl rfl rfl
    (by decide) (by decide) (by decide) (by decide) (fun _ _ => rfl) (fun _ => rfl)
    (fun _ => one_ne_zero) (fun _ _ => rfl)

/-- C6 (amended): `processImage` checks and appends the hard-coded
default marker, not the configured one: a prompt containing the default
marker `<__image__>` is passed to tokenization unchanged, otherwise the
default marker is appended after a space.  The marker configured at
`initMultimodal` is not consulted by this check. -/
theorem claim_C6_amended (eng : engine) (g : mtmd_context_wrapper) (app : app_t)
    (req : glue_msg_process_image_req) (c : Nat)
    (hm : app.model = true) (hc : app.ctx = true)
    (hi : g.initialized = true) (hg : g.ctx = some c)
    (hd : req.image_data ≠ []) (hw : 0 < req.width) (hh : 0 < req.height)
    (hlen : (req.width * req.height * 3).toNat ≤ req.image_data.length) :
    (contains_substr req.prompt default_image_marker = true →
        (action_process_image eng g app req).formatted_prompt = some req.prompt) ∧
    (contains_substr req.prompt default_image_marker = false →
        (action_process_image eng g app req).formatted_prompt =
          some (req.prompt ++ " " ++ default_image_marker)) := by
  have h := process_image_formatted eng g app req c hm hc hi hg hd hw hh hlen
  constructor
  · intro hp
    rw [h, if_pos hp]
  · intro hp
    rw [h, if_neg (by simp [hp])]

/-- witness for the amended C6: a marker-free prompt gets the default
marker appended; a prompt already holding it is passed unchanged. -/
theorem claim_C6_amended_witness :
    (action_process_image test_engine test_g test_app test_req).formatted_prompt =
      some (test_req.prompt ++ " " ++ default_image_marker) ∧
    (action_process_image test_engine test_g test_app test_req_def_marked).formatted_prompt =
      some test_req_def_marked.prompt := by
  constructor
  · exact (claim_C6_amended test_engine test_g test_app test_req 5 rfl rfl rfl rfl
      (by decide) (by decide) (by decide) (by decide)).2 (by decide)
  · exact (claim_C6_amended test_engine test_g test_app test_req_def_marked 5 rfl rfl rfl rfl
      (by decide) (by decide) (by decide) (by decide)).1 (by decide)

/-- counterexample to C6 as stated: `initMultimodal` configures the
marker `<IMG>`; a prompt that already holds this configured marker is
still mutated, because the hard-coded default `<__image__>` is appended
regardless of the configuration. -/
theorem claim_C6_counterexample :
    (action_init_mtmd .ok test_app test_init_req test_s0).1.marker = "<IMG>" ∧
    (action_init_mtmd .ok test_app test_init_req test_s0).2.success = true ∧
    contains_substr test_req_marked.prompt "<IMG>" = true ∧
    (action_process_image test_engine
        (action_init_mtmd .ok test_app test_init_req test_s0).1.wrapper
        test_app test_req_marked).formatted_prompt = some "hi <IMG> <__image__>" ∧
    (action_process_image test_engine
        (action_init_mtmd .ok test_app test_init_req test_s0).1.wrapper
        test_app test_req_marked).formatted_prompt ≠ some test_req_marked.prompt := by
  decide

/-- C7: two sequential `initMultimodal` calls with a model loaded: the
second call succeeds exactly when its own engine init does (leftover
state never makes it fail), on success exactly one live context remains,
and the context the first call left is destroyed in every case. -/
theorem claim_C7 (o1 o2 : mtmd_init_outcome) (app : app_t)
    (req1 req2 : glue_msg_init_mtmd_req) (s0 : mtmd_global_state)
    (hm : app.model = true) (hwf : state_wf s0) :
    ((action_init_mtmd o2 app req2 (action_init_mtmd o1 app req1 s0).1).2.success = true ↔
      o2 = .ok) ∧
    (o2 = .ok → ∃ b,
      (action_init_mtmd o2 app req2 (action_init_mtmd o1 app req1 s0).1).1.wrapper.ctx =
        some b ∧
      (action_init_mtmd o2 app req2 (action_init_mtmd o1 app req1 s0).1).1.live = [b]) ∧
    (∀ c, (action_init_mtmd o1 app req1 s0).1.wrapper.ctx = some c →
      c ∉ (action_init_mtmd o2 app req2 (action_init_mtmd o1 app req1 s0).1).1.live) := by
  have hwf1 := action_init_mtmd_wf o1 app req1 s0 hwf
  refine ⟨action_init_mtmd_success o2 app req2 _ hm, ?_, ?_⟩
  · intro ho2
    subst ho2
    obtain ⟨hctx, hlive⟩ :=
      action_init_mtmd_ok_state app req2 (action_init_mtmd o1 app req1 s0).1 hm
    refine ⟨(mtmd_cleanup (action_init_mtmd o1 app req1 s0).1).next_id, hctx, ?_⟩
    rw [hlive, mtmd_cleanup_live_nil _ hwf1]
  · intro c hc
    obtain ⟨hl1, hb1⟩ := hwf1
    have hcm : c ∈ (action_init_mtmd o1 app req1 s0).1.live := by
      rw [hl1, hc]
      simp
    have hlt := hb1 c hcm
    by_cases ho2 : o2 = mtmd_init_outcome.ok
    · subst ho2
      obtain ⟨hctx, hlive⟩ :=
        action_init_mtmd_ok_state app req2 (action_init_mtmd o1 app req1 s0).1 hm
      rw [hlive, mtmd_cleanup_live_nil _ ⟨hl1, hb1⟩, mtmd_cleanup_next_id]
      simp only [List.mem_cons, List.not_mem_nil, or_false]
      omega
    · obtain ⟨hn, hlive⟩ :=
        action_init_mtmd_fail_state o2 app req2 (action_init_mtmd o1 app req1 s0).1 hm ho2
      rw [hlive, mtmd_cleanup_live_nil _ ⟨hl1, hb1⟩]
      simp

/-- witness for C7: two successful init calls from the pristine state
leave one live context and the second call reports success. -/
theorem claim_C7_witness :
    ((action_init_mtmd .ok test_app test_init_req
        (action_init_mtmd .ok test_app test_init_req test_s0).1).2.success = true) ∧
    (∃ b, (action_init_mtmd .ok test_app test_init_req
        (action_init_mtmd .ok test_app test_init_req test_s0).1).1.wrapper.ctx = some b ∧
      (action_init_mtmd .ok test_app test_init_req
        (action_init_mtmd .ok test_app test_init_req test_s0).1).1.live = [b]) := by
  have h := claim_C7 .ok .ok test_app test_init_req test_init_req test_s0 rfl
    ⟨rfl, by decide⟩
  exact ⟨h.1.mpr rfl, h.2.1 rfl⟩

/-- C8: a `processImage` call that returns success=false leaves the
multimodal context wrapper unchanged: the context pointer and the flag
are identical before and after the failed request. -/
theorem claim_C8 (eng : engine) (g : mtmd_context_wrapper) (app : app_t)
    (req : glue_msg_process_image_req)
    (hfail : (action_process_image eng g app req).res.success = false) :
    (action_process_image eng g app req).g.ctx = g.ctx ∧
    (action_process_image eng g app req).g.initialized = g.initialized := by
  rw [process_image_g_eq]
  exact ⟨rfl, rfl⟩

/-- witness for C8: a request failing for a missing model leaves the
wrapper's pointer and flag untouched. -/
theorem claim_C8_witness :
    (action_process_image test_engine test_g test_app_nomodel test_req).res.success = false ∧
    (action_process_image test_engine test_g test_app_nomodel test_req).g.ctx = test_g.ctx ∧
    (action_process_image test_engine test_g test_app_nomodel test_req).g.initialized =
      test_g.initialized := by
  have h : (action_process_image test_engine test_g test_app_nomodel test_req).res.success =
      false := rfl
  exact ⟨h, (claim_C8 test_engine test_g test_app_nomodel test_req h).1,
    (claim_C8 test_engine test_g test_app_nomodel test_req h).2⟩

/-- C9: if the very first sampled token is the end-of-sequence token,
`processImage` succeeds with an empty result and an empty error; and in
every run the end-of-sequence token's piece is never appended: the
result is a concatenation of pieces of non-end-of-sequence tokens only. -/
theorem claim_C9 (eng : engine) (g : mtmd_context_wrapper) (app : app_t)
    (req : glue_msg_process_image_req) (c : Nat)
    (hm : app.model = true) (hc : app.ctx = true)
    (hi : g.initialized = true) (hg : g.ctx = some c)
    (hd : req.image_data ≠ []) (hw : 0 < req.width) (hh : 0 < req.height)
    (hlen : (req.width * req.height * 3).toNat ≤ req.image_data.length)
    (ht : ∀ s b, eng.mtmd_tokenize s b = 0)
    (he : ∀ p, eng.mtmd_helper_eval p = 0)
    (hfirst : eng.wcommon_sampler_sample eng.mtmd_helper_get_n_tokens =
      eng.llama_token_eos) :
    ((action_process_image eng g app req).res.success = true ∧
     (action_process_image eng g app req).res.result = "" ∧
     (action_process_image eng g app req).res.error = "") ∧
    (∀ (eng2 : engine) (g2 : mtmd_context_wrapper) (app2 : app_t)
        (req2 : glue_msg_process_image_req),
      ∃ ids : List Int, (∀ id ∈ ids, ¬ id = eng2.llama_token_eos) ∧
        (action_process_image eng2 g2 app2 req2).res.result =
          concat_pieces (ids.map eng2.llama_token_to_piece)) := by
  constructor
  · obtain ⟨hres, _⟩ := process_image_res_eq eng g app req c hm hc hi hg hd hw hh hlen ht he
    rw [generation_loop_eos eng eng.mtmd_helper_get_n_tokens "" hfirst max_tokens
      (by decide)] at hres
    rw [hres]
    exact ⟨rfl, rfl, rfl⟩
  · intro eng2 g2 app2 req2
    exact process_image_result_pieces eng2 g2 app2 req2

/-- witness for C9: the benign engine samples the end-of-sequence token
first; the request succeeds with empty text. -/
theorem claim_C9_witness :
    (action_process_image test_engine test_g test_app test_req).res.success = true ∧
    (action_process_image test_engine test_g test_app test_req).res.result = "" ∧
    (action_process_image test_engine test_g test_app test_req).res.error = "" ∧
    (∃ ids : List Int, (∀ id ∈ ids, ¬ id = test_engine.llama_token_eos) ∧
      (action_process_image test_engine test_g test_app test_req).res.result =
        concat_pieces (ids.map test_engine.llama_token_to_piece)) := by
  have h := claim_C9 test_engine test_g test_app test_req 5 rfl rfl rfl rfl
    (by decide) (by decide) (by decide) (by decide) (fun _ _ => rfl) (fun _ => rfl) rfl
  exact ⟨h.1.1, h.1.2.1, h.1.2.2, h.2 test_engine test_g test_app test_req⟩

/-- C10: re-initialization is not atomic: with a live initialized
context, a failing engine init (null context or exception) yields
success=false and leaves the manager uninitialized with a null pointer;
the previously working context has been destroyed, not retained. -/
theorem claim_C10 (o : mtmd_init_outcome) (app : app_t)
    (req : glue_msg_init_mtmd_req) (s : mtmd_global_state) (c : Nat)
    (hm : app.model = true) (hctx : s.wrapper.ctx = some c)
    (hinit : s.wrapper.initialized = true) (hwf : state_wf s) (ho : o ≠ .ok) :
    (action_init_mtmd o app req s).2.success = false ∧
    (action_init_mtmd o app req s).1.wrapper.ctx = none ∧
    (action_init_mtmd o app req s).1.wrapper.initialized = false ∧
    c ∉ (action_init_mtmd o app req s).1.live := by
  obtain ⟨hnone, hlive⟩ := action_init_mtmd_fail_state o app req s hm ho
  refine ⟨?_, hnone, action_init_mtmd_fail_flag o app req s c hm ho hctx, ?_⟩
  · cases hsucc : (action_init_mtmd o app req s).2.success
    · rfl
    · exact absurd ((action_init_mtmd_success o app req s hm).mp hsucc) ho
  · rw [hlive, mtmd_cleanup_live_nil s hwf]
    simp

/-- witness for C10: a null engine result while context 5 is live. -/
theorem claim_C10_witness :
    (action_init_mtmd .null test_app test_init_req test_s_live).2.success = false ∧
    (action_init_mtmd .null test_app test_init_req test_s_live).1.wrapper.ctx = none ∧
    (action_init_mtmd .null test_app test_init_req
      test_s_live).1.wrapper.initialized = false ∧
    5 ∉ (action_init_mtmd .null test_app test_init_req test_s_live).1.live :=
  claim_C10 .null test_app test_init_req test_s_live 5 rfl rfl rfl ⟨rfl, by decide⟩
    (by decide)

end WllamaMtmd
